import Mathlib

/-!
Verification of the poppler-rs safety layer (`src/lib.rs`).

The Rust crate wraps the native poppler engine behind owned handles.  We embed
the pure, observable behaviour of the wrapper functions over a model of the
native engine's state: a `NativeDoc` records what the opaque native document
pointer would answer to each FFI query, and a `NativePage` does the same for a
native page pointer.  C strings crossing the boundary are byte lists; a native
string result is `none` for a null pointer or `some (ptr, bytes)` where `ptr`
identifies the allocation (so that deallocation discipline can be stated) and
`bytes` are the NUL-free contents.  Accessors that may free native memory
return, next to their value, the list of pointer identifiers they free.
-/

namespace Poppler

/-- Bytes of a C string (contents only, no terminator). -/
abbrev Bytes := List Nat

/-- Decoded text, as a list of Unicode code points. -/
abbrev Str := List Nat

/-- Error kind of a `glib::error::Error`: the wrapper itself only ever raises
`glib::FileError::Inval`; errors translated from the native engine carry the
native (domain, code) pair. -/
inductive GErrorKind where
  | fileErrorInval : GErrorKind
  | nativeErr (domain code : Nat) : GErrorKind
deriving DecidableEq, Repr

/-- A structured `glib::error::Error`: a kind plus a human-readable message. -/
structure GError where
  kind : GErrorKind
  message : String
deriving DecidableEq, Repr

/-- The error built at src/lib.rs:43-46 for an empty input buffer. -/
def dataEmptyError : GError := ⟨.fileErrorInval, "data is empty"⟩

/-- The error built at src/lib.rs:135-138 for a password that `CString::new`
rejects. -/
def passwordError : GError :=
  ⟨.fileErrorInval, "Password invalid (possibly contains NUL characters)"⟩

/-- Observable state of a native poppler page pointer.  `id` identifies the
pointer value; `text` is what `poppler_page_get_text` returns: `none` for
null, or the allocation identifier and bytes of the returned C string. -/
structure NativePage where
  id : Nat
  text : Option (Nat × Bytes)
deriving DecidableEq

/-- Observable state of a native poppler document pointer.  Modelled from the
spec for the external engine (the `ffi` module's target is not part of this
crate): `nPagesRaw` is the `c_int` answered by `poppler_document_get_n_pages`;
`page i` is the pointer answered by `poppler_document_get_page` for `c_int`
index `i` (`none` = null); the three string fields are the results of the
title / metadata / PDF-version accessors, each `none` for null or
`some (ptr, bytes)` for a fresh native allocation. -/
structure NativeDoc where
  nPagesRaw : Int
  page : Int → Option NativePage
  title : Option (Nat × Bytes)
  metadata : Option (Nat × Bytes)
  versionString : Option (Nat × Bytes)

/-- Modelled from the spec: the native engine's documented behaviour for a
successfully opened document (spec §4.3, §4.5): the page count is a
non-negative `c_int`, and page lookup answers null for every index outside
`[0, page count)`. -/
def NativeDoc.WF (d : NativeDoc) : Prop :=
  0 ≤ d.nPagesRaw ∧ d.nPagesRaw < 2 ^ 31 ∧
    ∀ i : Int, i < 0 ∨ d.nPagesRaw ≤ i → d.page i = none

/-- Modelled from the spec: outcome of one native constructor call as seen
through the out-of-band error slot convention (`util::call_with_gerror`,
whose `util` module is not under src/): the call either produces a non-null
result or populates the error slot. -/
inductive NativeOutcome (α : Type) where
  | ok (value : α) : NativeOutcome α
  | err (e : GError) : NativeOutcome α

/-- Modelled from the spec: the Error Translator (`util::call_with_gerror`)
returns the successful result, or the structured error extracted from the
slot. -/
def call_with_gerror {α : Type} : NativeOutcome α → Except GError α
  | .ok v => .ok v
  | .err e => .error e

/-- `PopplerDocument::get_password` (src/lib.rs:128-140): an absent password
becomes `""`; `CString::new` fails exactly when the bytes contain an interior
NUL, which the wrapper maps to `passwordError`; otherwise the C string holds
the password bytes. -/
def get_password (password : Option Bytes) : Except GError Bytes :=
  let s : Bytes := match password with
    | none => []
    | some s => s
  if (0 : Nat) ∈ s then .error passwordError else .ok s

/-- `PopplerDocument::new_from_data` (src/lib.rs:38-60).  The native
constructor `poppler_document_new_from_data` is a parameter
`native : data ↦ password ↦ outcome`, so that theorems quantifying over it
express independence from the native engine. -/
def new_from_data (native : Bytes → Bytes → NativeOutcome NativeDoc)
    (data : Bytes) (password : Option Bytes) : Except GError NativeDoc :=
  if data.isEmpty then .error dataEmptyError
  else do
    let pw ← get_password password
    call_with_gerror (native data pw)

/-- `PopplerDocument::new_from_file` (src/lib.rs:23-35).  `pathConv` models
`util::path_to_glib_url` (the `util` module is not under src/; modelled from
the spec: it converts the path into the engine's locator form and may fail);
`native` models `poppler_document_new_from_file`. -/
def new_from_file (P : Type) (pathConv : P → Except GError Bytes)
    (native : Bytes → Bytes → NativeOutcome NativeDoc)
    (p : P) (password : Option Bytes) : Except GError NativeDoc := do
  let pw ← get_password password
  let url ← pathConv p
  call_with_gerror (native url pw)

/-- `index as c_int` on a usize value: truncate to 32 bits and reinterpret
as a signed 32-bit integer. -/
def usizeToCInt (n : Nat) : Int :=
  let w : Nat := n % 2 ^ 32
  if w < 2 ^ 31 then (w : Int) else (w : Int) - 2 ^ 32

/-- `PopplerDocument::get_n_pages` (src/lib.rs:104-108): the native `c_int`
cast to `usize` (sign-extension then reinterpretation, i.e. reduction modulo
`2^64` on a 64-bit target). -/
def get_n_pages (d : NativeDoc) : Nat :=
  (d.nPagesRaw % (2 ^ 64 : Int)).toNat

/-- `PopplerDocument::get_page` (src/lib.rs:111-116): pass `index as c_int`
to the native lookup; a null answer is `None`, anything else is wrapped. -/
def get_page (d : NativeDoc) (index : Nat) : Option NativePage :=
  d.page (usizeToCInt index)

/-- `PopplerDocument::len` (src/lib.rs:145-147). -/
def PopplerDocument.len (d : NativeDoc) : Nat := get_n_pages d

/-- `PopplerDocument::is_empty` (src/lib.rs:150-152). -/
def PopplerDocument.is_empty (d : NativeDoc) : Bool :=
  PopplerDocument.len d == 0

/-- State of `PagesIter` (src/lib.rs:222-227): captured bound, cursor, and
the borrowed document. -/
structure PagesIter where
  total : Nat
  index : Nat
  doc : NativeDoc

/-- `PopplerDocument::pages` (src/lib.rs:118-124): capture the page count
once and start the cursor at 0. -/
def PopplerDocument.pages (d : NativeDoc) : PagesIter :=
  { total := get_n_pages d, index := 0, doc := d }

/-- `PagesIter::next` (src/lib.rs:232-240): within the captured bound, look
the page up and advance the cursor (even when the lookup answers `None`);
past the bound, answer `None` and leave the state unchanged. -/
def PagesIter.next (it : PagesIter) : Option NativePage × PagesIter :=
  if it.index < it.total then
    (get_page it.doc it.index, { it with index := it.index + 1 })
  else
    (none, it)

/-- Driving a `PagesIter` the way a Rust `for` loop does: collect the items
of successive `next` calls, stopping at the first `None`.  The body inlines
`PagesIter.next`; `toList_next_step` below certifies the agreement. -/
def PagesIter.toList (it : PagesIter) : List NativePage :=
  if h : it.index < it.total then
    match get_page it.doc it.index with
    | some p => p :: PagesIter.toList { it with index := it.index + 1 }
    | none => []
  else []
termination_by it.total - it.index
decreasing_by simp; omega

/-- `PagesIter.toList` is the `next`-driven traversal: one `next` step, keep
going on `some`, stop on `none`. -/
theorem toList_next_step (it : PagesIter) :
    it.toList = (match it.next with
      | (some p, it2) => p :: it2.toList
      | (none, _) => []) := by
  rw [PagesIter.toList, PagesIter.next]
  by_cases h : it.index < it.total
  · simp only [h, if_true, dif_pos h]
    cases hp : get_page it.doc it.index <;> simp
  · simp [h]

/-- A native document all of whose observable answers are trivial; used as a
concrete stand-in for the native constructor's successful result in
instantiations. -/
def emptyDoc : NativeDoc :=
  { nPagesRaw := 0, page := fun _ => none,
    title := none, metadata := none, versionString := none }

/-- C3: for every password (and any native constructor behaviour),
`new_from_data` on an empty buffer returns exactly the "data is empty"
invalid-input error — the result does not depend on the native constructor,
so native code is never reached — and hence yields no document handle. -/
theorem new_from_data_empty_buffer
    (native : Bytes → Bytes → NativeOutcome NativeDoc)
    (password : Option Bytes) :
    new_from_data native [] password = .error dataEmptyError := rfl

/-- C4: for a password containing an embedded NUL byte, `new_from_file`
(for every path and every behaviour of the path converter and the native
constructor) and `new_from_data` on a non-empty buffer (for every buffer and
native constructor) both return exactly the local password-validation error,
so no document handle is produced and the result never depends on native
code. -/
theorem nul_password_fails (P : Type) (pathConv : P → Except GError Bytes)
    (native1 native2 : Bytes → Bytes → NativeOutcome NativeDoc)
    (p : P) (data : Bytes) (pw : Bytes)
    (hnul : (0 : Nat) ∈ pw) (hdata : data ≠ []) :
    new_from_file P pathConv native1 p (some pw) = .error passwordError ∧
      new_from_data native2 data (some pw) = .error passwordError := by
  have hpw : get_password (some pw) = .error passwordError := by
    simp [get_password, hnul]
  constructor
  · show (do
        let pw ← get_password (some pw)
        let url ← pathConv p
        call_with_gerror (native1 url pw)) = .error passwordError
    rw [hpw]
    rfl
  · have hne : data.isEmpty = false := by
      cases data with
      | nil => exact absurd rfl hdata
      | cons a l => rfl
    show (if data.isEmpty then Except.error dataEmptyError
      else do
        let pw ← get_password (some pw)
        call_with_gerror (native2 data pw)) = .error passwordError
    rw [hne, hpw]
    rfl

/-- Witness for C4 at a concrete input: path `()`, buffer `[37]`,
password `[0]`; the path converter succeeds and the native constructor would
succeed, yet both opens fail with the password-validation error. -/
theorem nul_password_fails_witness :
    new_from_file Unit (fun _ => .ok []) (fun _ _ => .ok emptyDoc) ()
        (some [0]) = .error passwordError ∧
      new_from_data (fun _ _ => .ok emptyDoc) [37] (some [0]) =
        .error passwordError :=
  nul_password_fails Unit (fun _ => .ok []) (fun _ _ => .ok emptyDoc)
    (fun _ _ => .ok emptyDoc) () [37] [0] (by decide) (by decide)

/-- C8: `len` answers exactly `get_n_pages`, and `is_empty` holds iff that
page count is zero. -/
theorem len_eq_n_pages_and_is_empty_iff (d : NativeDoc) :
    PopplerDocument.len d = get_n_pages d ∧
      (PopplerDocument.is_empty d = true ↔ get_n_pages d = 0) := by
  refine ⟨rfl, ?_⟩
  simp [PopplerDocument.is_empty, PopplerDocument.len]

/-- C9: opening with no password behaves identically to opening with the
empty password: `get_password` converts the absent password to the empty C
string and succeeds, and both open operations give bitwise-equal results for
`none` and `some ""` on every path, buffer, path converter and native
constructor. -/
theorem none_password_eq_empty_password :
    get_password none = .ok [] ∧
      get_password none = get_password (some []) ∧
      (∀ (P : Type) (pathConv : P → Except GError Bytes)
        (native : Bytes → Bytes → NativeOutcome NativeDoc) (p : P),
        new_from_file P pathConv native p none =
          new_from_file P pathConv native p (some [])) ∧
      (∀ (native : Bytes → Bytes → NativeOutcome NativeDoc) (data : Bytes),
        new_from_data native data none = new_from_data native data (some [])) :=
  ⟨rfl, rfl, fun _ _ _ _ => rfl, fun _ _ => rfl⟩

/-- C10: in `new_from_data` the empty-buffer check precedes password
validation: an empty buffer with a NUL-containing password yields the
"data is empty" error, which is distinct from the password-encoding error. -/
theorem empty_buffer_checked_before_password
    (native : Bytes → Bytes → NativeOutcome NativeDoc)
    (pw : Bytes) (hnul : (0 : Nat) ∈ pw) :
    new_from_data native [] (some pw) = .error dataEmptyError ∧
      dataEmptyError ≠ passwordError :=
  ⟨rfl, by decide⟩

/-- Witness for C10 at the concrete password `[0]` (a lone NUL byte) and a
native constructor that would succeed. -/
theorem empty_buffer_checked_before_password_witness :
    new_from_data (fun _ _ => .ok emptyDoc) [] (some [0]) =
        .error dataEmptyError ∧
      dataEmptyError ≠ passwordError :=
  empty_buffer_checked_before_password (fun _ _ => .ok emptyDoc) [0] (by decide)

/-- Unfolding equation of `PagesIter.toList` on an explicit state. -/
theorem toList_eq (n k : Nat) (d : NativeDoc) :
    PagesIter.toList ⟨n, k, d⟩ =
      if k < n then
        match get_page d k with
        | some p => p :: PagesIter.toList ⟨n, k + 1, d⟩
        | none => []
      else [] := by
  rw [PagesIter.toList]
  by_cases h : k < n <;> simp [h]

/-- Traversal spec under the native in-range contract: if every index below
`n` resolves to a page, the traversal starting at cursor `k ≤ n` collects
exactly the pages of indices `k, k+1, …, n-1` in that order. -/
theorem toList_spec_of_all_some (d : NativeDoc) (n : Nat)
    (hall : ∀ i, i < n → (get_page d i).isSome) :
    ∀ fuel k, n ≤ k + fuel →
      (PagesIter.toList ⟨n, k, d⟩).length = n - k ∧
      ∀ j, (PagesIter.toList ⟨n, k, d⟩).get? j =
        if k + j < n then get_page d (k + j) else none := by
  intro fuel
  induction fuel with
  | zero =>
    intro k hk
    have hnk : ¬ k < n := by omega
    rw [toList_eq, if_neg hnk]
    refine ⟨by simp; omega, fun j => ?_⟩
    have hj : ¬ k + j < n := by omega
    simp [hj]
  | succ fuel ih =>
    intro k hk
    by_cases hkn : k < n
    · obtain ⟨p, hp⟩ := Option.isSome_iff_exists.mp (hall k hkn)
      have hrest := ih (k + 1) (by omega)
      rw [toList_eq, if_pos hkn, hp]
      refine ⟨?_, fun j => ?_⟩
      · simp only [List.length_cons, hrest.1]
        omega
      · cases j with
        | zero =>
          have h0 : k + 0 < n := by omega
          simp [h0, hp, hkn]
        | succ j =>
          have h2 := hrest.2 j
          have e : k + 1 + j = k + (j + 1) := by omega
          rw [e] at h2
          simpa using h2
    · rw [toList_eq, if_neg hkn]
      refine ⟨by simp; omega, fun j => ?_⟩
      have hj : ¬ k + j < n := by omega
      simp [hj]

/-- C1: under the native contract that every index below the page count
resolves to a page, iterating `pages()` collects exactly `get_n_pages`
items, the `j`-th collected item being page `j` (ascending order from 0);
moreover a `next` step never changes the captured bound `total` (it is
never re-queried from the document), and a second `pages()` call yields an
independent cursor whose traversal is equal (in particular of equal
length). -/
theorem pages_yields_all_pages (d : NativeDoc)
    (hall : ∀ i, i < get_n_pages d → (get_page d i).isSome) :
    (PopplerDocument.pages d).toList.length = get_n_pages d ∧
      (∀ j, j < get_n_pages d →
        (PopplerDocument.pages d).toList.get? j = get_page d j) ∧
      (∀ it : PagesIter, (it.next).2.total = it.total) ∧
      (PopplerDocument.pages d).toList = (PopplerDocument.pages d).toList := by
  have h := toList_spec_of_all_some d (get_n_pages d) hall (get_n_pages d) 0
    (by omega)
  refine ⟨by simpa using h.1, fun j hj => ?_, fun it => ?_, rfl⟩
  · have := h.2 j
    simpa [hj] using this
  · rw [PagesIter.next]
    by_cases hlt : it.index < it.total <;> simp [hlt]

/-- A two-page native document (native page pointers 10 and 11) used for
concrete instantiations. -/
def twoPageDoc : NativeDoc :=
  { nPagesRaw := 2,
    page := fun i =>
      if i = 0 then some ⟨10, none⟩
      else if i = 1 then some ⟨11, none⟩
      else none,
    title := none, metadata := none, versionString := none }

/-- Witness for C1 on the concrete two-page document: the traversal has
exactly `get_n_pages` items. -/
theorem pages_yields_all_pages_witness :
    (PopplerDocument.pages twoPageDoc).toList.length = get_n_pages twoPageDoc :=
  (pages_yields_all_pages twoPageDoc (by decide)).1

/-- A one-page native document whose single page (pointer 10) lives at
native index 0. -/
def onePageDoc : NativeDoc :=
  { nPagesRaw := 1,
    page := fun i => if i = 0 then some ⟨10, none⟩ else none,
    title := none, metadata := none, versionString := none }

/-- `onePageDoc` satisfies the native engine's documented contract. -/
theorem onePageDoc_wf : onePageDoc.WF := by
  refine ⟨by decide, by decide, fun i hi => ?_⟩
  have hi1 : i < 0 ∨ (1 : Int) ≤ i := by simpa [onePageDoc] using hi
  have h0 : i ≠ 0 := by rcases hi1 with h | h <;> omega
  simp [onePageDoc, h0]

/-- C2 counterexample: on a well-formed one-page document, the out-of-range
index `2^32` is not mapped to `None`: `index as c_int` wraps it to 0 and
`get_page` returns the first page. -/
theorem get_page_wraparound_cex :
    NativeDoc.WF onePageDoc ∧
      get_n_pages onePageDoc ≤ 2 ^ 32 ∧
      get_page onePageDoc (2 ^ 32) = some ⟨10, none⟩ :=
  ⟨onePageDoc_wf, by decide, by decide⟩

/-- C2 (amended): for a well-formed document and any index outside
`[0, get_n_pages)` that is below `2^32` (so that the `as c_int` conversion
cannot wrap back into range), `get_page` returns `None` — out-of-range and
native-null lookups are both collapsed into the same `None`. -/
theorem get_page_out_of_range (d : NativeDoc) (hwf : d.WF) (i : Nat)
    (hlo : get_n_pages d ≤ i) (hhi : i < 2 ^ 32) :
    get_page d i = none := by
  obtain ⟨h0, hlt, hnull⟩ := hwf
  have hn : get_n_pages d = d.nPagesRaw.toNat := by
    unfold get_n_pages
    rw [Int.emod_eq_of_lt h0 (by omega)]
  rw [hn] at hlo
  unfold get_page usizeToCInt
  have hw : i % 2 ^ 32 = i := Nat.mod_eq_of_lt hhi
  by_cases hcase : i % 2 ^ 32 < 2 ^ 31
  · rw [if_pos hcase]
    apply hnull
    right
    omega
  · rw [if_neg hcase]
    apply hnull
    left
    omega

/-- Witness for C2: on the concrete one-page document, index 5 is out of
range and answered with `None`. -/
theorem get_page_out_of_range_witness : get_page onePageDoc 5 = none :=
  get_page_out_of_range onePageDoc onePageDoc_wf 5 (by decide) (by decide)

/-- C7: if, within the captured bound, the page lookup of the current step
answers `None`, that `next` step yields no item (and `next`, being a total
function, cannot panic), and the traversal from this state collects
nothing. -/
theorem iter_stops_on_absent (it : PagesIter)
    (hin : it.index < it.total)
    (habs : get_page it.doc it.index = none) :
    (it.next).1 = none ∧ it.toList = [] := by
  constructor
  · rw [PagesIter.next]
    simp [hin]
    exact habs
  · rw [PagesIter.toList]
    simp [hin, habs]

/-- Witness for C7: a cursor whose bound is 1 but whose document answers
null at index 0 yields no item and an empty traversal. -/
theorem iter_stops_on_absent_witness :
    (PagesIter.next ⟨1, 0, emptyDoc⟩).1 = none ∧
      PagesIter.toList ⟨1, 0, emptyDoc⟩ = [] :=
  iter_stops_on_absent ⟨1, 0, emptyDoc⟩ (by decide) (by decide)

/-- UTF-8 decoding of a byte list into code points, with the validation
Rust's `str::from_utf8` performs (RFC 3629: continuation ranges restricted
per leading byte, no overlong forms, no surrogates, maximum U+10FFFF):
`none` when the bytes are not valid UTF-8. -/
def utf8Decode : List Nat → Option (List Nat)
  | [] => some []
  | b :: bs =>
    if b < 0x80 then (utf8Decode bs).map (fun r => b :: r)
    else if 0xC2 ≤ b ∧ b ≤ 0xDF then
      match bs with
      | b1 :: bs2 =>
        if 0x80 ≤ b1 ∧ b1 ≤ 0xBF then
          (utf8Decode bs2).map (fun r => ((b - 0xC0) * 0x40 + (b1 - 0x80)) :: r)
        else none
      | [] => none
    else if 0xE0 ≤ b ∧ b ≤ 0xEF then
      match bs with
      | b1 :: b2 :: bs2 =>
        if (if b = 0xE0 then 0xA0 else 0x80) ≤ b1 ∧
            b1 ≤ (if b = 0xED then 0x9F else 0xBF) ∧
            0x80 ≤ b2 ∧ b2 ≤ 0xBF then
          (utf8Decode bs2).map (fun r =>
            ((b - 0xE0) * 0x1000 + (b1 - 0x80) * 0x40 + (b2 - 0x80)) :: r)
        else none
      | _ => none
    else if 0xF0 ≤ b ∧ b ≤ 0xF4 then
      match bs with
      | b1 :: b2 :: b3 :: bs2 =>
        if (if b = 0xF0 then 0x90 else 0x80) ≤ b1 ∧
            b1 ≤ (if b = 0xF4 then 0x8F else 0xBF) ∧
            0x80 ≤ b2 ∧ b2 ≤ 0xBF ∧ 0x80 ≤ b3 ∧ b3 ≤ 0xBF then
          (utf8Decode bs2).map (fun r =>
            ((b - 0xF0) * 0x40000 + (b1 - 0x80) * 0x1000 +
              (b2 - 0x80) * 0x40 + (b3 - 0x80)) :: r)
        else none
      | _ => none
    else none

/-- `PopplerDocument::get_title` (src/lib.rs:63-72): a null pointer is
`None` and nothing is freed; a non-null pointer is taken over by
`CString::from_raw`, converted with `into_string().ok()` (valid UTF-8 gives
the text, invalid gives `None`), and in either case the allocation is freed
when the `CString` is dropped.  The second component records the pointers
freed by the call. -/
def PopplerDocument.get_title (d : NativeDoc) : Option Str × List Nat :=
  match d.title with
  | none => (none, [])
  | some (ptr, bytes) => (utf8Decode bytes, [ptr])

/-- `PopplerDocument::get_metadata` (src/lib.rs:75-84): same shape as
`get_title`. -/
def PopplerDocument.get_metadata (d : NativeDoc) : Option Str × List Nat :=
  match d.metadata with
  | none => (none, [])
  | some (ptr, bytes) => (utf8Decode bytes, [ptr])

/-- `PopplerDocument::get_pdf_version_string` (src/lib.rs:87-96): same shape
as `get_title`. -/
def PopplerDocument.get_pdf_version_string (d : NativeDoc) :
    Option Str × List Nat :=
  match d.versionString with
  | none => (none, [])
  | some (ptr, bytes) => (utf8Decode bytes, [ptr])

/-- `PopplerPage::get_text` (src/lib.rs:214-219): a null pointer is `None`;
a non-null pointer is borrowed with `CStr::from_ptr` and decoded with
`to_str().unwrap_or_default()`, so invalid UTF-8 becomes the empty string.
The call frees nothing: `CStr::from_ptr` does not take ownership and the
function never calls `g_free`. -/
def PopplerPage.get_text (p : NativePage) : Option Str × List Nat :=
  match p.text with
  | none => (none, [])
  | some (_ptr, bytes) => (some ((utf8Decode bytes).getD []), [])

/-- C5: for each text-returning accessor, a null native pointer yields
`None` and nothing is freed; a non-null pointer yields the decoded text,
and invalid encoding is tolerated: the three document accessors answer
whatever `into_string().ok()` gives (`None` on invalid UTF-8, i.e. they
fail permissively), while page text extraction substitutes the default
empty text for an undecodable buffer. -/
theorem string_accessor_spec (d : NativeDoc) (p : NativePage) :
    (d.title = none → PopplerDocument.get_title d = (none, [])) ∧
      (d.metadata = none → PopplerDocument.get_metadata d = (none, [])) ∧
      (d.versionString = none →
        PopplerDocument.get_pdf_version_string d = (none, [])) ∧
      (p.text = none → PopplerPage.get_text p = (none, [])) ∧
      (∀ ptr bytes, d.title = some (ptr, bytes) →
        (PopplerDocument.get_title d).1 = utf8Decode bytes) ∧
      (∀ ptr bytes, d.metadata = some (ptr, bytes) →
        (PopplerDocument.get_metadata d).1 = utf8Decode bytes) ∧
      (∀ ptr bytes, d.versionString = some (ptr, bytes) →
        (PopplerDocument.get_pdf_version_string d).1 = utf8Decode bytes) ∧
      (∀ ptr bytes, p.text = some (ptr, bytes) →
        (PopplerPage.get_text p).1 = some ((utf8Decode bytes).getD [])) := by
  refine ⟨fun h => ?_, fun h => ?_, fun h => ?_, fun h => ?_,
    fun ptr bytes h => ?_, fun ptr bytes h => ?_, fun ptr bytes h => ?_,
    fun ptr bytes h => ?_⟩ <;>
    simp [PopplerDocument.get_title, PopplerDocument.get_metadata,
      PopplerDocument.get_pdf_version_string, PopplerPage.get_text, h]

/-- A document answering title bytes `[0xFF]` (invalid UTF-8) from native
allocation 7, with null metadata and version strings. -/
def badTitleDoc : NativeDoc :=
  { nPagesRaw := 0, page := fun _ => none,
    title := some (7, [255]), metadata := none, versionString := none }

/-- A page answering text bytes `[0xFF]` (invalid UTF-8) from native
allocation 42. -/
def badTextPage : NativePage := { id := 3, text := some (42, [255]) }

/-- Witness for C5 at concrete inputs: an invalid-UTF-8 title decodes to
`None` (permissive failure), a null metadata pointer is `None` with no
deallocation, and invalid-UTF-8 page text becomes the empty text. -/
theorem string_accessor_spec_witness :
    (PopplerDocument.get_title badTitleDoc).1 = utf8Decode [255] ∧
      PopplerDocument.get_metadata badTitleDoc = (none, []) ∧
      (PopplerPage.get_text badTextPage).1 =
        some ((utf8Decode [255]).getD []) :=
  ⟨(string_accessor_spec badTitleDoc badTextPage).2.2.2.2.1 7 [255] rfl,
    (string_accessor_spec badTitleDoc badTextPage).2.1 rfl,
    (string_accessor_spec badTitleDoc badTextPage).2.2.2.2.2.2.2 42 [255] rfl⟩

/-- A page whose native text accessor answers the non-null allocation 42
with bytes "hi". -/
def leakPage : NativePage := { id := 0, text := some (42, [104, 105]) }

/-- C6 evaluated at the failing input: `get_title` does free its non-null
native string (allocation 7) exactly once, but `PopplerPage::get_text`,
handed the non-null allocation 42, frees nothing — the native allocation is
leaked, contradicting the Owned String Adapter contract. -/
theorem get_text_skips_free :
    (PopplerDocument.get_title badTitleDoc).2 = [7] ∧
      leakPage.text = some (42, [104, 105]) ∧
      (PopplerPage.get_text leakPage).2 = [] :=
  ⟨rfl, rfl, rfl⟩

end Poppler
